import Mathlib

/-!
Verification of the image gallery / editing front-end.

Shallow embedding of the state logic of the app:
- `src/types.ts` gives the data model (`ImageItem`, `EditedVersion`,
  `EditRequestParams`).
- The App component (gallery store) gives `handleFileUpload`,
  `handleUpdateImage`, `handleAddGeneratedImage`, `removeImage`,
  `toggleSelection` and the `selectedImagesList` filter.
- The single-image `Editor` component gives `activeUrl`,
  `handleRevertToOriginal` and the guard of its `handleGenerate`.
- The `MultiImageEditor` component gives the blend dispatch
  (`multiHandleGenerate`) with its default-prompt substitution.
- The `ImageComparison` component gives `handleDrag` (the slider
  boundary computation), embedded over `ℚ`.

External nondeterminism of the code (`Math.random` ids, `Date.now()`
timestamps, `window.confirm` answers) is passed in as explicit arguments.
The asynchronous API calls are modelled by returning the dispatched request
as data instead of performing it.
-/

/-- Structure `EditedVersion` of `src/types.ts`: one committed edit result
(`url`), the prompt that produced it, and a creation timestamp. -/
structure EditedVersion where
  id : String
  url : String
  prompt : String
  timestamp : Nat
  deriving DecidableEq, Repr

/-- Structure `ImageItem` of `src/types.ts`: a gallery image with its
immutable original content, mutable current content, and version history. -/
structure ImageItem where
  id : String
  originalUrl : String
  currentUrl : String
  name : String
  versions : List EditedVersion
  isProcessing : Bool
  deriving DecidableEq, Repr

/-- Structure `EditRequestParams` of `src/types.ts`: the payload of a
single-image edit request. The source url is an `Option` because the code
reads it through `activeUrl`, which can fail on an out-of-bounds index. -/
structure EditRequestParams where
  imageBase64 : Option String
  prompt : String
  preserveFaces : Bool
  deriving DecidableEq, Repr

/-- Embedding of `handleFileUpload` (App component): each successfully
decoded file appends a fresh image whose `originalUrl` and `currentUrl` are
both the decoded content and whose version list is empty. The fresh id and
the decoded data url are arguments (the code draws them from `Math.random`
and the `FileReader`). -/
def handleFileUpload (newId contentUrl fileName : String)
    (images : List ImageItem) : List ImageItem :=
  images ++ [⟨newId, contentUrl, contentUrl, fileName, [], false⟩]

/-- Embedding of `handleUpdateImage` (App component), the `appendVersion`
operation: maps over the collection; the image whose id matches gets
`currentUrl := newUrl` and a new version `⟨versionId, newUrl, prompt, ts⟩`
appended; every other image is returned unchanged. The fresh version id and
timestamp are arguments (the code draws them from `Math.random` and
`Date.now()`). -/
def handleUpdateImage (targetId newUrl versionId promptText : String)
    (ts : Nat) (images : List ImageItem) : List ImageItem :=
  images.map fun img =>
    if img.id = targetId then
      ⟨img.id, img.originalUrl, newUrl, img.name,
        img.versions ++ [⟨versionId, newUrl, promptText, ts⟩], img.isProcessing⟩
    else img

/-- Embedding of `handleRevertToOriginal` (Editor component): it calls
`onUpdateImage(image.id, image.originalUrl, "Revert to Original")`, i.e.
it delegates to `handleUpdateImage` with the image's original content and
the fixed synthetic label. -/
def handleRevertToOriginal (img : ImageItem) (versionId : String) (ts : Nat)
    (images : List ImageItem) : List ImageItem :=
  handleUpdateImage img.id img.originalUrl versionId "Revert to Original" ts images

/-- Embedding of `handleAddGeneratedImage` (App component): prepends a fresh
image whose `originalUrl` and `currentUrl` are both the generated content
and whose version list is empty. (The code also closes the multi editor,
leaves selection mode and clears the selection; only the collection part is
needed here.) -/
def handleAddGeneratedImage (newId newUrl label : String)
    (images : List ImageItem) : List ImageItem :=
  ⟨newId, newUrl, newUrl, label, [], false⟩ :: images

/-- Embedding of `removeImage` (App component): filters the image out of the
collection and, if its id is selected, deletes it from the selection set.
The JS `Set<string>` is modelled as a `List String` in insertion order;
`Set.delete` is a filter. -/
def removeImage (targetId : String) (images : List ImageItem)
    (selectedIds : List String) : List ImageItem × List String :=
  (images.filter fun img => img.id ≠ targetId,
   if targetId ∈ selectedIds then selectedIds.filter (fun s => s ≠ targetId)
   else selectedIds)

/-- Embedding of `toggleSelection` (App component): if the id is selected it
is deleted; otherwise, if the set already has at least 4 elements, the code
shows the alert "You can select up to 4 images max." and returns with the
set unchanged; otherwise the id is added. The returned `Bool` is `true`
exactly when the alert (the user-facing limit notice) fired. -/
def toggleSelection (targetId : String) (selectedIds : List String) :
    List String × Bool :=
  if targetId ∈ selectedIds then (selectedIds.filter (fun s => s ≠ targetId), false)
  else if 4 ≤ selectedIds.length then (selectedIds, true)
  else (selectedIds ++ [targetId], false)

/-- Embedding of `selectedImagesList` (App component):
`images.filter(img => selectedIds.has(img.id))` — the selection in the
gallery's display order. -/
def selectedImagesList (images : List ImageItem) (selectedIds : List String) :
    List ImageItem :=
  images.filter fun img => img.id ∈ selectedIds

/-- Embedding of `activeUrl` (Editor component):
`viewingVersionIndex !== null ? image.versions[viewingVersionIndex].url
: image.currentUrl`. Out-of-bounds indexing, which in JS yields `undefined`
and then throws on `.url`, is modelled as `none`. -/
def activeUrl (viewingVersionIndex : Option Nat) (img : ImageItem) :
    Option String :=
  match viewingVersionIndex with
  | some i => (img.versions.get? i).map EditedVersion.url
  | none => some img.currentUrl

/-- Content the spec's invariant demands of `currentUrl`:
`versions.last().content` if the version list is non-empty, else
`originalUrl`. -/
def specCurrent (img : ImageItem) : String :=
  ((img.versions.getLast?).map EditedVersion.url).getD img.originalUrl

/-- Version-history invariant of the spec: `current` equals the last
version's content when versions are non-empty, else the original. -/
def versionInvariant (img : ImageItem) : Prop :=
  img.currentUrl = specCurrent img

instance (img : ImageItem) : Decidable (versionInvariant img) :=
  inferInstanceAs (Decidable (img.currentUrl = specCurrent img))

/-- Embedding of the JS truthiness test `!s.trim()`: the string trims to
empty exactly when every character is whitespace. (`String.trim` itself is
defined by well-founded recursion and does not evaluate in proofs, so the
equivalent all-whitespace check on the character list is used.) -/
def isBlank (s : String) : Bool :=
  s.toList.all Char.isWhitespace

/-- Editor-side transient state of the Editor component (its `useState`
hooks relevant to `handleGenerate`). -/
structure EditorState where
  prompt : String
  isProcessing : Bool
  error : Option String
  preserveFaces : Bool
  viewingVersionIndex : Option Nat
  deriving DecidableEq, Repr

/-- Embedding of the synchronous dispatch part of the Editor's
`handleGenerate`: `if (!prompt.trim()) return;` guards everything; past the
guard it sets `isProcessing := true`, clears the error, and dispatches an
edit request whose source is the active url. Returns the post-dispatch
state and the dispatched request (`none` when nothing was dispatched). -/
def editorHandleGenerate (st : EditorState) (img : ImageItem) :
    EditorState × Option EditRequestParams :=
  if isBlank st.prompt then (st, none)
  else (⟨st.prompt, true, none, st.preserveFaces, st.viewingVersionIndex⟩,
        some ⟨activeUrl st.viewingVersionIndex img, st.prompt, st.preserveFaces⟩)

/-- Default prompt the MultiImageEditor substitutes via
`prompt || "Apply the style of the first image to the second image."`. -/
def defaultBlendPrompt : String :=
  "Apply the style of the first image to the second image."

/-- Embedding of the MultiImageEditor's `handleGenerate` dispatch: when the
prompt is blank and the user declines the confirm dialog, nothing is
dispatched; otherwise `generateMultiImageTransform` is called with the
selected images' current urls and `prompt || defaultBlendPrompt` (JS `||`:
the default is substituted exactly when the prompt is the empty string). -/
def multiHandleGenerate (promptText : String) (confirmOk : Bool)
    (selectedImages : List ImageItem) : Option (List String × String) :=
  if isBlank promptText ∧ confirmOk = false then none
  else some (selectedImages.map ImageItem.currentUrl,
             if promptText = "" then defaultBlendPrompt else promptText)

/-- Embedding of `handleDrag` (ImageComparison component) over `ℚ`:
`x = Math.max(0, Math.min(clientX - rect.left, rect.width));
percent = (x / rect.width) * 100`. -/
def handleDrag (clientX rectLeft rectWidth : ℚ) : ℚ :=
  max 0 (min (clientX - rectLeft) rectWidth) / rectWidth * 100

/-- Clamp to the unit interval, as the spec's boundary formula
`clamp((pointerX − containerLeft) / containerWidth, 0, 1)` uses it. -/
def clamp01 (x : ℚ) : ℚ :=
  max 0 (min x 1)

/-- Concrete five-image gallery used by the witness and scenario
theorems. -/
def demoGallery : List ImageItem :=
  [⟨"img1", "u1", "u1", "n1", [], false⟩,
   ⟨"img2", "u2", "u2", "n2", [], false⟩,
   ⟨"img3", "u3", "u3", "n3", [], false⟩,
   ⟨"img4", "u4", "u4", "n4", [], false⟩,
   ⟨"img5", "u5", "u5", "n5", [], false⟩]

/-- Concrete image with one committed version, used by concrete theorems. -/
def demoEdited : ImageItem :=
  ⟨"i1", "A", "B", "pic", [⟨"v1", "B", "p1", 0⟩], false⟩

/-- Scenario state: a single uploaded image with original content "A". -/
def scenarioS0 : List ImageItem :=
  handleFileUpload "i1" "A" "pic" []

/-- Scenario state after `appendVersion(id, B, "make it sketch")`. -/
def scenarioS1 : List ImageItem :=
  handleUpdateImage "i1" "B" "v1" "make it sketch" 1 scenarioS0

/-- Scenario state after a further `appendVersion(id, C, "add glow")`. -/
def scenarioS2 : List ImageItem :=
  handleUpdateImage "i1" "C" "v2" "add glow" 2 scenarioS1

/-- Claim C9: active content resolution — with a `none` viewing index the
active content is the image's current content, with index `i` it is the
content of the version at index `i`; and in the concrete scenario
(original "A", then appendVersion "B" "make it sketch", then appendVersion
"C" "add glow") the current content is "C", the version contents are
["B", "C"], and the active content at viewing index 0 is "B". -/
theorem claim_c9_active_content :
    (∀ img : ImageItem, activeUrl none img = some img.currentUrl) ∧
    (∀ (img : ImageItem) (i : Fin img.versions.length),
      activeUrl (some i.val) img = some (img.versions.get i).url) ∧
    scenarioS2 = [⟨"i1", "A", "C", "pic",
      [⟨"v1", "B", "make it sketch", 1⟩, ⟨"v2", "C", "add glow", 2⟩], false⟩] ∧
    (∀ img ∈ scenarioS2, img.currentUrl = "C" ∧
      img.versions.map EditedVersion.url = ["B", "C"] ∧
      activeUrl (some 0) img = some "B") := by
  refine ⟨fun img => rfl, fun img i => ?_, by decide, by decide⟩
  simp [activeUrl, List.get?_eq_get i.isLt]

/-- Claim C2 counterexample: on a concrete one-image collection, reverting
appends a version — the version list grows from length 1 to length 2,
refuting "the version list has the same length after the revert". (The
current content does become the original.) -/
theorem claim_c2_counterexample :
    demoEdited.versions.length = 1 ∧
    (handleRevertToOriginal demoEdited "v2" 1 [demoEdited]).map
      (fun img => img.versions.length) = [2] ∧
    (handleRevertToOriginal demoEdited "v2" 1 [demoEdited]).map
      (fun img => img.currentUrl) = ["A"] := by decide

/-- Claim C2 (amended): the revert operation sets the image's current
content to its original content, but it records the revert by appending a
version entry labelled "Revert to Original": the version list grows by
exactly one, keeping its previous entries as a prefix, and the collection
size is unchanged. -/
theorem claim_c2_revert_appends
    (images : List ImageItem) (img : ImageItem) (versionId : String) (ts : Nat)
    (j : ImageItem) (hj : j ∈ images) (hid : j.id = img.id) :
    (handleRevertToOriginal img versionId ts images).length = images.length ∧
    ∃ j' ∈ handleRevertToOriginal img versionId ts images,
      j'.id = j.id ∧ j'.currentUrl = img.originalUrl ∧
      j'.versions.length = j.versions.length + 1 ∧
      j'.versions.take j.versions.length = j.versions ∧
      (j'.versions.getLast?).map EditedVersion.prompt = some "Revert to Original" := by
  constructor
  · unfold handleRevertToOriginal handleUpdateImage
    exact List.length_map images _
  · refine ⟨⟨j.id, j.originalUrl, img.originalUrl, j.name,
      j.versions ++ [⟨versionId, img.originalUrl, "Revert to Original", ts⟩],
      j.isProcessing⟩, ?_, rfl, rfl, by simp, List.take_left _ _,
      by simp [List.getLast?_concat]⟩
    unfold handleRevertToOriginal handleUpdateImage
    exact List.mem_map.mpr ⟨j, hj, by simp [hid]⟩

/-- Claim C2 witness: the amended theorem applied to the concrete one-image
collection of the counterexample. -/
theorem claim_c2_witness :
    (handleRevertToOriginal demoEdited "v2" 1 [demoEdited]).length =
      ([demoEdited] : List ImageItem).length ∧
    ∃ j' ∈ handleRevertToOriginal demoEdited "v2" 1 [demoEdited],
      j'.id = demoEdited.id ∧ j'.currentUrl = demoEdited.originalUrl ∧
      j'.versions.length = demoEdited.versions.length + 1 ∧
      j'.versions.take demoEdited.versions.length = demoEdited.versions ∧
      (j'.versions.getLast?).map EditedVersion.prompt = some "Revert to Original" :=
  claim_c2_revert_appends [demoEdited] demoEdited "v2" 1 demoEdited
    (by decide) rfl

/-- Claim C8: `handleUpdateImage` with an id absent from the collection is a
silent no-op — the whole collection is returned unchanged. -/
theorem claim_c8_missing_id_noop
    (images : List ImageItem) (targetId newUrl versionId promptText : String)
    (ts : Nat) (habs : targetId ∉ images.map ImageItem.id) :
    handleUpdateImage targetId newUrl versionId promptText ts images = images := by
  have hcong : ∀ a ∈ images,
      (if a.id = targetId then
        (⟨a.id, a.originalUrl, newUrl, a.name,
          a.versions ++ [⟨versionId, newUrl, promptText, ts⟩],
          a.isProcessing⟩ : ImageItem)
      else a) = id a := by
    intro a ha
    have hne : a.id ≠ targetId := fun hc => habs (List.mem_map.mpr ⟨a, ha, hc⟩)
    simp [hne]
  unfold handleUpdateImage
  rw [List.map_congr_left hcong, List.map_id]

/-- Claim C8 witness: updating with the unknown id "zz" leaves the concrete
five-image gallery unchanged. -/
theorem claim_c8_witness :
    handleUpdateImage "zz" "u" "v" "p" 0 demoGallery = demoGallery :=
  claim_c8_missing_id_noop demoGallery "zz" "u" "v" "p" 0 (by decide)

/-- Claim C10: when the editor's prompt is blank (empty or whitespace-only),
`handleGenerate` is a complete no-op — no edit request is dispatched, the
editor state (including the processing flag and the error) is unchanged. -/
theorem claim_c10_blank_prompt_noop
    (st : EditorState) (img : ImageItem) (hblank : isBlank st.prompt = true) :
    editorHandleGenerate st img = (st, none) := by
  unfold editorHandleGenerate
  rw [if_pos hblank]

/-- Claim C10 witness: a whitespace-only prompt dispatches nothing and
leaves the editor state untouched. -/
theorem claim_c10_witness :
    editorHandleGenerate ⟨"   ", false, none, true, none⟩ demoEdited =
      (⟨"   ", false, none, true, none⟩, none) :=
  claim_c10_blank_prompt_noop ⟨"   ", false, none, true, none⟩ demoEdited
    (by decide)

/-- Claim C3: toggling a selected id removes it; toggling a new id when the
set already holds 4 leaves the set unchanged and fires the limit notice;
otherwise the id is added; and the resulting selection size never exceeds
4. -/
theorem claim_c3_toggle_selection
    (selectedIds : List String) (targetId : String)
    (hcard : selectedIds.length ≤ 4) :
    (targetId ∈ selectedIds →
      (toggleSelection targetId selectedIds).2 = false ∧
      targetId ∉ (toggleSelection targetId selectedIds).1 ∧
      ∀ s, s ∈ (toggleSelection targetId selectedIds).1 ↔
        s ∈ selectedIds ∧ s ≠ targetId) ∧
    (targetId ∉ selectedIds → selectedIds.length = 4 →
      (toggleSelection targetId selectedIds).1 = selectedIds ∧
      (toggleSelection targetId selectedIds).2 = true) ∧
    (targetId ∉ selectedIds → selectedIds.length < 4 →
      (toggleSelection targetId selectedIds).2 = false ∧
      ∀ s, s ∈ (toggleSelection targetId selectedIds).1 ↔
        s ∈ selectedIds ∨ s = targetId) ∧
    (toggleSelection targetId selectedIds).1.length ≤ 4 := by
  refine ⟨?_, ?_, ?_, ?_⟩
  · intro hmem
    unfold toggleSelection
    rw [if_pos hmem]
    refine ⟨rfl, ?_, ?_⟩
    · simp [List.mem_filter]
    · intro s
      simp [List.mem_filter]
  · intro hnot hlen
    unfold toggleSelection
    rw [if_neg hnot, if_pos (by omega)]
    exact ⟨rfl, rfl⟩
  · intro hnot hlt
    unfold toggleSelection
    rw [if_neg hnot, if_neg (by omega)]
    refine ⟨rfl, ?_⟩
    intro s
    simp [List.mem_append]
  · by_cases hmem : targetId ∈ selectedIds
    · unfold toggleSelection
      rw [if_pos hmem]
      exact le_trans (List.length_filter_le _ _) hcard
    · by_cases h4 : 4 ≤ selectedIds.length
      · unfold toggleSelection
        rw [if_neg hmem, if_pos h4]
        exact hcard
      · unfold toggleSelection
        rw [if_neg hmem, if_neg h4]
        simp only [List.length_append, List.length_cons, List.length_nil]
        omega

/-- Claim C3 witness: toggling a fifth id "e" on the full selection
["a", "b", "c", "d"] — the limit branch of the theorem applies at this
concrete input. -/
theorem claim_c3_witness :
    ("e" ∈ ["a", "b", "c", "d"] →
      (toggleSelection "e" ["a", "b", "c", "d"]).2 = false ∧
      "e" ∉ (toggleSelection "e" ["a", "b", "c", "d"]).1 ∧
      ∀ s, s ∈ (toggleSelection "e" ["a", "b", "c", "d"]).1 ↔
        s ∈ ["a", "b", "c", "d"] ∧ s ≠ "e") ∧
    ("e" ∉ ["a", "b", "c", "d"] → (["a", "b", "c", "d"] : List String).length = 4 →
      (toggleSelection "e" ["a", "b", "c", "d"]).1 = ["a", "b", "c", "d"] ∧
      (toggleSelection "e" ["a", "b", "c", "d"]).2 = true) ∧
    ("e" ∉ ["a", "b", "c", "d"] → (["a", "b", "c", "d"] : List String).length < 4 →
      (toggleSelection "e" ["a", "b", "c", "d"]).2 = false ∧
      ∀ s, s ∈ (toggleSelection "e" ["a", "b", "c", "d"]).1 ↔
        s ∈ ["a", "b", "c", "d"] ∨ s = "e") ∧
    (toggleSelection "e" ["a", "b", "c", "d"]).1.length ≤ 4 :=
  claim_c3_toggle_selection ["a", "b", "c", "d"] "e" (by decide)

/-- Claim C4: removing an image removes its id from the selection set; the
surviving selection references only images still in the collection; the
removed id is absent from the collection, and from the ordered selection
thereafter; and in the concrete scenario, selection {img1, img3, img5}
followed by removal of img3 yields {img1, img5}, still blend-eligible. -/
theorem claim_c4_remove_image
    (images : List ImageItem) (selectedIds : List String) (targetId : String)
    (hsub : ∀ s ∈ selectedIds, s ∈ images.map ImageItem.id) :
    targetId ∉ (removeImage targetId images selectedIds).2 ∧
    (∀ s ∈ (removeImage targetId images selectedIds).2,
      s ∈ (removeImage targetId images selectedIds).1.map ImageItem.id) ∧
    (∀ img ∈ (removeImage targetId images selectedIds).1, img.id ≠ targetId) ∧
    (∀ img ∈ selectedImagesList (removeImage targetId images selectedIds).1
      (removeImage targetId images selectedIds).2, img.id ≠ targetId) ∧
    (removeImage "img3" demoGallery ["img1", "img3", "img5"]).2 = ["img1", "img5"] ∧
    2 ≤ (removeImage "img3" demoGallery ["img1", "img3", "img5"]).2.length := by
  have hsel : ∀ s ∈ (removeImage targetId images selectedIds).2,
      s ∈ selectedIds ∧ s ≠ targetId := by
    intro s hs
    unfold removeImage at hs
    by_cases hmem : targetId ∈ selectedIds
    · rw [if_pos hmem] at hs
      simpa [List.mem_filter] using hs
    · rw [if_neg hmem] at hs
      exact ⟨hs, fun h => hmem (h ▸ hs)⟩
  have himgs : ∀ img ∈ (removeImage targetId images selectedIds).1,
      img.id ≠ targetId := by
    intro img himg
    unfold removeImage at himg
    simp only [List.mem_filter, decide_eq_true_eq] at himg
    exact himg.2
  refine ⟨?_, ?_, himgs, ?_, by decide, by decide⟩
  · intro h
    exact (hsel _ h).2 rfl
  · intro s hs
    obtain ⟨hs1, hs2⟩ := hsel s hs
    obtain ⟨img, himg, hid⟩ := List.mem_map.mp (hsub s hs1)
    refine List.mem_map.mpr ⟨img, ?_, hid⟩
    unfold removeImage
    simp only [List.mem_filter, decide_eq_true_eq]
    exact ⟨himg, by simp [hid, hs2]⟩
  · intro img himg
    unfold selectedImagesList at himg
    simp only [List.mem_filter] at himg
    exact himgs img himg.1

/-- Claim C4 witness: the theorem applied to the concrete gallery with
selection ["img1", "img3", "img5"] and removal of "img3". -/
theorem claim_c4_witness :
    "img3" ∉ (removeImage "img3" demoGallery ["img1", "img3", "img5"]).2 ∧
    (∀ s ∈ (removeImage "img3" demoGallery ["img1", "img3", "img5"]).2,
      s ∈ (removeImage "img3" demoGallery ["img1", "img3", "img5"]).1.map ImageItem.id) ∧
    (∀ img ∈ (removeImage "img3" demoGallery ["img1", "img3", "img5"]).1,
      img.id ≠ "img3") ∧
    (∀ img ∈ selectedImagesList (removeImage "img3" demoGallery ["img1", "img3", "img5"]).1
      (removeImage "img3" demoGallery ["img1", "img3", "img5"]).2, img.id ≠ "img3") ∧
    (removeImage "img3" demoGallery ["img1", "img3", "img5"]).2 = ["img1", "img5"] ∧
    2 ≤ (removeImage "img3" demoGallery ["img1", "img3", "img5"]).2.length :=
  claim_c4_remove_image demoGallery ["img1", "img3", "img5"] "img3" (by decide)

/-- Claim C5 counterexample: at the concrete call with an empty prompt, the
prompt passed downstream is the code's default "Apply the style of the
first image to the second image." — a non-empty default, but not the
string "apply the style of the first image to the rest" the claim
states. -/
theorem claim_c5_counterexample :
    multiHandleGenerate "" true demoGallery =
      some (["u1", "u2", "u3", "u4", "u5"], defaultBlendPrompt) ∧
    defaultBlendPrompt ≠ "apply the style of the first image to the rest" ∧
    defaultBlendPrompt ≠ "" := by decide

/-- Claim C5 (amended): whenever the blend dispatch fires, the payload is
the selected images' current contents, an empty prompt is replaced by the
non-empty default "Apply the style of the first image to the second
image.", and a non-empty prompt is passed through unchanged. -/
theorem claim_c5_default_prompt
    (promptText : String) (confirmOk : Bool) (imgs : List ImageItem)
    (payload : List String) (eff : String)
    (hcall : multiHandleGenerate promptText confirmOk imgs = some (payload, eff)) :
    payload = imgs.map ImageItem.currentUrl ∧
    (promptText = "" → eff = defaultBlendPrompt ∧ eff ≠ "") ∧
    (promptText ≠ "" → eff = promptText) := by
  unfold multiHandleGenerate at hcall
  by_cases hg : isBlank promptText = true ∧ confirmOk = false
  · rw [if_pos hg] at hcall
    exact absurd hcall (by simp)
  · rw [if_neg hg] at hcall
    rw [Option.some.injEq, Prod.mk.injEq] at hcall
    obtain ⟨hpay, heff⟩ := hcall
    refine ⟨hpay.symm, ?_, ?_⟩
    · intro hp
      rw [← heff, if_pos hp]
      exact ⟨rfl, by decide⟩
    · intro hp
      rw [← heff, if_neg hp]

/-- Claim C5 witness: the amended theorem applied to the concrete dispatch
with an empty prompt and a confirmed dialog. -/
theorem claim_c5_witness :
    (["u1", "u2", "u3", "u4", "u5"] : List String) =
      demoGallery.map ImageItem.currentUrl ∧
    (("" : String) = "" → defaultBlendPrompt = defaultBlendPrompt ∧
      defaultBlendPrompt ≠ "") ∧
    (("" : String) ≠ "" → defaultBlendPrompt = "") :=
  claim_c5_default_prompt "" true demoGallery ["u1", "u2", "u3", "u4", "u5"]
    defaultBlendPrompt (by decide)

/-- Helper for claim C6: the head of a filtered list is the first element
satisfying the predicate. -/
theorem head?_filter_eq_find? {α : Type} (p : α → Bool) (l : List α) :
    (l.filter p).head? = l.find? p := by
  induction l with
  | nil => rfl
  | cons a t ih =>
    by_cases h : p a = true
    · rw [List.filter_cons_of_pos h, List.find?_cons_of_pos _ h, List.head?_cons]
    · rw [List.filter_cons_of_neg (by simpa using h),
        List.find?_cons_of_neg _ (by simpa using h), ih]

/-- Claim C6: the ordered selection handed to the blend editor is the
collection filtered, in display order, to the selected ids — it depends
only on selection membership (not on the order ids were added), it is a
sublist of the collection, and its head (the reference image) is the first
image in collection order whose id is selected. -/
theorem claim_c6_ordered_selection
    (images : List ImageItem) (sel sel2 : List String)
    (h12 : ∀ s ∈ sel, s ∈ sel2) (h21 : ∀ s ∈ sel2, s ∈ sel) :
    selectedImagesList images sel = selectedImagesList images sel2 ∧
    (∀ img, img ∈ selectedImagesList images sel ↔
      img ∈ images ∧ img.id ∈ sel) ∧
    List.Sublist (selectedImagesList images sel) images ∧
    (selectedImagesList images sel).head? =
      images.find? (fun img => decide (img.id ∈ sel)) := by
  refine ⟨?_, ?_, ?_, ?_⟩
  · unfold selectedImagesList
    refine List.filter_congr ?_
    intro img _
    simp only [decide_eq_decide]
    exact ⟨fun h => h12 _ h, fun h => h21 _ h⟩
  · intro img
    unfold selectedImagesList
    simp [List.mem_filter]
  · unfold selectedImagesList
    exact List.filter_sublist images
  · unfold selectedImagesList
    exact head?_filter_eq_find? _ images

/-- Claim C6 witness: the theorem applied to the concrete gallery with the
selection containing img3 and img1, in both click orders — the ordered
selection and its head (reference image img1, the first selected id in
gallery order) agree. -/
theorem claim_c6_witness :
    selectedImagesList demoGallery ["img3", "img1"] =
      selectedImagesList demoGallery ["img1", "img3"] ∧
    (∀ img, img ∈ selectedImagesList demoGallery ["img3", "img1"] ↔
      img ∈ demoGallery ∧ img.id ∈ ["img3", "img1"]) ∧
    List.Sublist (selectedImagesList demoGallery ["img3", "img1"]) demoGallery ∧
    (selectedImagesList demoGallery ["img3", "img1"]).head? =
      demoGallery.find? (fun img => decide (img.id ∈ ["img3", "img1"])) :=
  claim_c6_ordered_selection demoGallery ["img3", "img1"] ["img1", "img3"]
    (by decide) (by decide)

/-- Claim C7: for a container of positive width, the slider boundary
computed by `handleDrag` equals
`clamp((pointerX − containerLeft) / containerWidth, 0, 1) × 100` and always
lies within [0, 100], for every pointer coordinate (including coordinates
outside the container bounds). -/
theorem claim_c7_slider_clamped
    (clientX rectLeft rectWidth : ℚ) (hw : 0 < rectWidth) :
    handleDrag clientX rectLeft rectWidth =
      clamp01 ((clientX - rectLeft) / rectWidth) * 100 ∧
    0 ≤ handleDrag clientX rectLeft rectWidth ∧
    handleDrag clientX rectLeft rectWidth ≤ 100 := by
  have hw' : rectWidth ≠ 0 := ne_of_gt hw
  have key : max 0 (min (clientX - rectLeft) rectWidth) / rectWidth =
      max 0 (min ((clientX - rectLeft) / rectWidth) 1) := by
    rw [← max_div_div_right hw.le 0 (min (clientX - rectLeft) rectWidth),
      ← min_div_div_right hw.le (clientX - rectLeft) rectWidth,
      zero_div, div_self hw']
  have hmain : handleDrag clientX rectLeft rectWidth =
      clamp01 ((clientX - rectLeft) / rectWidth) * 100 := by
    unfold handleDrag clamp01
    rw [key]
  refine ⟨hmain, ?_, ?_⟩
  · rw [hmain]
    exact mul_nonneg (le_max_left 0 _) (by norm_num)
  · rw [hmain]
    have h1 : clamp01 ((clientX - rectLeft) / rectWidth) ≤ 1 :=
      max_le (by norm_num) (min_le_right _ _)
    calc clamp01 ((clientX - rectLeft) / rectWidth) * 100 ≤ 1 * 100 :=
          mul_le_mul_of_nonneg_right h1 (by norm_num)
      _ = 100 := by norm_num

/-- Claim C7 witness: a pointer at x = 25 over a container [10, 10 + 20]
gives a 75% boundary, within [0, 100]. -/
theorem claim_c7_witness :
    handleDrag 25 10 20 = clamp01 ((25 - 10) / 20) * 100 ∧
    0 ≤ handleDrag 25 10 20 ∧
    handleDrag 25 10 20 ≤ 100 :=
  claim_c7_slider_clamped 25 10 20 (by norm_num)

/-- Claim C1: the version-history invariant (`current` equals the last
version's content when versions are non-empty, else the original) is
preserved for every image by every `appendVersion` call; the updated image
ends with a non-empty version list whose last entry's content equals its
current content; and freshly added images (file upload or
`addGeneratedImage`) enter the collection with an empty version list and
`current = original`, satisfying the invariant. -/
theorem claim_c1_append_invariant
    (images : List ImageItem) (targetId newUrl versionId promptText : String)
    (ts : Nat) (hinv : ∀ img ∈ images, versionInvariant img) :
    (∀ img ∈ handleUpdateImage targetId newUrl versionId promptText ts images,
      versionInvariant img) ∧
    (∀ img ∈ handleUpdateImage targetId newUrl versionId promptText ts images,
      img.id = targetId → img.versions ≠ [] ∧ img.currentUrl = newUrl ∧
        (img.versions.getLast?).map EditedVersion.url = some img.currentUrl) ∧
    (∀ img ∈ handleFileUpload versionId newUrl promptText images,
      img ∈ images ∨
        (img.versions = [] ∧ img.currentUrl = img.originalUrl ∧
          versionInvariant img)) ∧
    (∀ img ∈ handleAddGeneratedImage versionId newUrl promptText images,
      img ∈ images ∨
        (img.versions = [] ∧ img.currentUrl = img.originalUrl ∧
          versionInvariant img)) := by
  refine ⟨?_, ?_, ?_, ?_⟩
  · intro img hmem
    unfold handleUpdateImage at hmem
    obtain ⟨a, ha, rfl⟩ := List.mem_map.mp hmem
    by_cases h : a.id = targetId
    · rw [if_pos h]
      simp [versionInvariant, specCurrent, List.getLast?_concat]
    · rw [if_neg h]
      exact hinv a ha
  · intro img hmem hid
    unfold handleUpdateImage at hmem
    obtain ⟨a, ha, rfl⟩ := List.mem_map.mp hmem
    by_cases h : a.id = targetId
    · rw [if_pos h] at hid ⊢
      refine ⟨by simp, rfl, by simp [List.getLast?_concat]⟩
    · rw [if_neg h] at hid
      exact absurd hid h
  · intro img hmem
    unfold handleFileUpload at hmem
    rcases List.mem_append.mp hmem with h | h
    · exact Or.inl h
    · right
      rw [List.mem_singleton] at h
      subst h
      exact ⟨rfl, rfl, rfl⟩
  · intro img hmem
    unfold handleAddGeneratedImage at hmem
    rcases List.mem_cons.mp hmem with h | h
    · right
      subst h
      exact ⟨rfl, rfl, rfl⟩
    · exact Or.inl h

/-- Claim C1 witness: the theorem applied to a concrete one-image
collection (whose image satisfies the invariant) and a concrete
`appendVersion` call. -/
theorem claim_c1_witness :
    (∀ img ∈ handleUpdateImage "i1" "C" "v9" "p9" 7 [demoEdited],
      versionInvariant img) ∧
    (∀ img ∈ handleUpdateImage "i1" "C" "v9" "p9" 7 [demoEdited],
      img.id = "i1" → img.versions ≠ [] ∧ img.currentUrl = "C" ∧
        (img.versions.getLast?).map EditedVersion.url = some img.currentUrl) ∧
    (∀ img ∈ handleFileUpload "v9" "C" "p9" [demoEdited],
      img ∈ [demoEdited] ∨
        (img.versions = [] ∧ img.currentUrl = img.originalUrl ∧
          versionInvariant img)) ∧
    (∀ img ∈ handleAddGeneratedImage "v9" "C" "p9" [demoEdited],
      img ∈ [demoEdited] ∨
        (img.versions = [] ∧ img.currentUrl = img.originalUrl ∧
          versionInvariant img)) :=
  claim_c1_append_invariant [demoEdited] "i1" "C" "v9" "p9" 7 (by decide)
